import Mathlib

/-!
Verification development for `streamlda.py` (streaming variational Bayes for
LDA).  The source is Python 2 with numpy; the embedding below models numeric
values with `ℚ` and takes the transcendental primitives (`exp`, `psi` = digamma,
`log`, `gammaln`), the random gamma draws, the power function used for the
learning rate, and the external collaborator `DirichletWords` (its module
`dirichlet_words.py` is not part of src/) as explicit parameters collected in a
`NumFuns` record.  Stateful Python code is modelled by explicit state passing:
each operation returns the updated `StreamLDA` state together with the mutated
document list (the source normalizes the document strings in place).
-/

/-- meanchangethresh = 0.001 (line 25). -/
def meanchangethresh : ℚ := 1 / 1000

/-- The additive constant 1e-100 that keeps phinorm away from zero (line 182). -/
def epsPhi : ℚ := 1 / 10 ^ 100

/- ---------------------------------------------------------------------------
Document normalization (parse_new_docs, lines 117-121).  The source applies,
per document string: str.lower(), re.sub of hyphen to space, re.sub removing
every character outside lowercase a-z and space, re.sub collapsing runs of
spaces, then string.split.
--------------------------------------------------------------------------- -/

/-- Python str.lower restricted to its ASCII action (the documents of this
model are ASCII text): uppercase letters move down by 32, all else is kept. -/
def pyLowerChar (c : Char) : Char :=
  if 65 ≤ c.toNat ∧ c.toNat ≤ 90 then Char.ofNat (c.toNat + 32) else c

/-- re.sub of the pattern hyphen with a space (line 118), per character. -/
def subHyphenChar (c : Char) : Char :=
  if c = '-' then ' ' else c

/-- The character class kept by re.sub removing every char outside
lowercase a-z and space (line 119). -/
def keepChar (c : Char) : Bool :=
  (97 ≤ c.toNat && c.toNat ≤ 122) || c.toNat == 32

/-- re.sub collapsing every run of spaces to a single space (line 120). -/
def collapseSpaces : List Char → List Char
  | [] => []
  | [c] => [c]
  | c1 :: c2 :: rest =>
      if c1 = ' ' ∧ c2 = ' ' then collapseSpaces (c2 :: rest)
      else c1 :: collapseSpaces (c2 :: rest)

/-- The whole per-document normalization of lines 117-120, on char lists. -/
def normalizeChars (l : List Char) : List Char :=
  collapseSpaces (((l.map pyLowerChar).map subHyphenChar).filter keepChar)

/-- The normalized form written back into the callers document list
(lines 117-120). -/
def normalizeDoc (s : String) : String :=
  String.mk (normalizeChars s.toList)

/-- string.split (line 121): split on spaces, dropping empty fragments.  After
normalization the only whitespace left is the space character. -/
def splitAux : List Char → List Char → List String
  | [], cur => if cur.isEmpty then [] else [String.mk cur.reverse]
  | c :: rest, cur =>
      if c = ' ' then
        if cur.isEmpty then splitAux rest []
        else String.mk cur.reverse :: splitAux rest []
      else splitAux rest (c :: cur)

/-- Tokenize a normalized document. -/
def splitWords (l : List Char) : List String :=
  splitAux l []

/- ---------------------------------------------------------------------------
The Vocabulary/Topic-Count Store.  Its implementation file dirichlet_words.py
is not under src/; every operation below that the core calls is modelled from
the spec.
--------------------------------------------------------------------------- -/

/-- Modelled from the spec: the Vocabulary/Topic-Count Store (`DirichletWords`
in the source; its module `dirichlet_words.py` is missing from src/).  It maps
tokens to stable integer ids (the position in `words`), accumulates
per-(word-id, topic) pseudo-counts, and carries a capacity bound
(`max_tables`), both attributes the core reads directly (lines 248-250). -/
structure DirichletWords where
  numTopics : ℕ
  words : List String
  counts : ℕ → ℕ → ℚ
  max_tables : ℕ

/-- Modelled from the spec: a fresh store for `K` topics with the configured
capacity bound `cap` (DirichletWords(self._K), line 74). -/
def DirichletWords.new (K cap : ℕ) : DirichletWords :=
  { numTopics := K, words := [], counts := fun _ _ => 0, max_tables := cap }

/-- Modelled from the spec: `index(token)` returns the stable id of the token,
assigning the next fresh id (and registering the token) on first sight
(line 126).  Counts are untouched. -/
def DirichletWords.index (st : DirichletWords) (w : String) :
    ℕ × DirichletWords :=
  match st.words.findIdx? (· == w) with
  | some i => (i, st)
  | none => (st.words.length, { st with words := st.words ++ [w] })

/-- Modelled from the spec: `update_counts(word, topic, v)` adds `v` to the
per-(word, topic) pseudo-count (line 213). -/
def DirichletWords.update_counts (st : DirichletWords) (w k : ℕ) (v : ℚ) :
    DirichletWords :=
  { st with counts := fun w2 k2 =>
      if w2 = w ∧ k2 = k then st.counts w2 k2 + v else st.counts w2 k2 }

/-- Modelled from the spec: `merge(new_statistics, weight)` blends the running
counts with the batch statistics, `(1-rhot)*old + rhot*new` (line 245; the
exact blending is the responsibility of the store, the claims below use only
that the word list and capacity are those of the running model). -/
def DirichletWords.merge (st newst : DirichletWords) (rhot : ℚ) :
    DirichletWords :=
  { st with counts := fun w k =>
      (1 - rhot) * st.counts w k + rhot * newst.counts w k }

/-- Modelled from the spec: `forget(fraction)` evicts that fraction of the
vocabulary entries, here the floor of `fraction * size` many (which entries
are chosen, being the low-value ones, is store policy; only the count of
evicted entries matters for the claims). -/
def DirichletWords.forget (st : DirichletWords) (fraction : ℚ) :
    DirichletWords :=
  { st with words :=
      st.words.take (st.words.length - (Rat.floor (fraction * st.words.length)).toNat) }

/- ---------------------------------------------------------------------------
dirichlet_expectation (lines 27-37), embedded faithfully over a model of the
numpy array argument: a numpy value is either a 1-D vector or a 2-D matrix,
len() is the size of the first dimension, and n.sum(a, 1) raises for a 1-D
argument (the second axis does not exist).
--------------------------------------------------------------------------- -/

/-- A numpy array argument of dirichlet_expectation: 1-D or 2-D. -/
inductive NpArr where
  | vec : List ℚ → NpArr
  | mat : List (List ℚ) → NpArr

/-- Python len() on a numpy array: the size of the first dimension. -/
def NpArr.len : NpArr → ℕ
  | .vec l => l.length
  | .mat m => m.length

/-- n.sum(alpha): the sum of all entries. -/
def NpArr.total : NpArr → ℚ
  | .vec l => l.sum
  | .mat m => (m.map List.sum).sum

/-- dirichlet_expectation (lines 27-37).  The branch test of line 35 is
`len(alpha) == 1`; in the second branch, `n.sum(alpha, 1)` raises on a 1-D
argument because a 1-D array has no second axis. -/
def dirichlet_expectation (psi : ℚ → ℚ) (alpha : NpArr) :
    Except String NpArr :=
  if alpha.len = 1 then
    .ok (match alpha with
      | .vec l => .vec (l.map (fun x => psi x - psi alpha.total))
      | .mat m => .mat (m.map (fun r => r.map (fun x => psi x - psi alpha.total))))
  else
    match alpha with
    | .vec _ => .error "ValueError: axis 1 is out of bounds for a 1-dimensional array"
    | .mat m => .ok (.mat (m.map (fun r => r.map (fun x => psi x - psi r.sum))))

/- ---------------------------------------------------------------------------
A tiny model of the Python iteration protocol, needed for the statistics loop
of do_e_step: line 210 runs `for topic in self._K` where `self._K` is the int
K, and iterating an int raises TypeError.
--------------------------------------------------------------------------- -/

/-- A Python value that can appear after `in` in a for statement here. -/
inductive PyVal where
  | int : ℤ → PyVal
  | list : List PyVal → PyVal

/-- The Python iteration protocol: a list iterates its elements, an int is not
iterable and raises TypeError. -/
def pyIterate : PyVal → Except String (List PyVal)
  | .int _ => .error "TypeError: int object is not iterable"
  | .list l => .ok l

/-- The inner statistics loop header of do_e_step (line 210):
`for topic in self._K` iterates the integer field `_K` itself. -/
def statsLoopTopics (K : ℤ) : Except String (List PyVal) :=
  pyIterate (.int K)

/- ---------------------------------------------------------------------------
Numeric and collaborator primitives, passed explicitly.
--------------------------------------------------------------------------- -/

/-- The primitives the core calls but does not define: numpy exp, scipy psi
(digamma), numpy log, scipy gammaln, the built-in pow, the random gamma draws
of line 160 (indexed by document and topic), and, modelled from the spec, the
as_matrix view of the store (the dense expected-log-probability matrix,
indexed topic then word id) together with the configured capacity bound the
fresh stores are created with. -/
structure NumFuns where
  exp : ℚ → ℚ
  psi : ℚ → ℚ
  log : ℚ → ℚ
  gammaln : ℚ → ℚ
  pow : ℚ → ℚ → ℚ
  grand : ℕ → ℕ → ℚ
  asMatrix : DirichletWords → ℕ → ℕ → ℚ
  cap : ℕ

/- ---------------------------------------------------------------------------
The model state (StreamLDA.__init__, lines 44-78).
--------------------------------------------------------------------------- -/

/-- The state of a StreamLDA model: the configuration fields set by __init__
(the stored tau0 is the constructor argument plus one, line 62), the running
counters D and batches_to_date, the store holding lambda, the cached
expectation matrices, indexed topic then word id (the E-step slices columns
of expElogbeta by word id, line 179), and the _rhot attribute that
update_lambda stores on self at line 237 before anything can raise (none
until the first update call: __init__ does not create the attribute). -/
structure StreamLDA where
  K : ℕ
  alpha : ℚ
  eta : ℚ
  tau0 : ℚ
  kappa : ℚ
  D : ℕ
  batches_to_date : ℕ
  lam : DirichletWords
  Elogbeta : ℕ → ℕ → ℚ
  expElogbeta : ℕ → ℕ → ℚ
  rhotStored : Option ℚ

/-- StreamLDA.__init__ (lines 44-78).  The body is a sequence of assignments;
it contains no validation of K, alpha, eta, tau0 or kappa and no raise
statement, so it is total: the Except layer (the Python exception channel)
always carries ok. -/
def StreamLDA.init (F : NumFuns) (K : ℕ) (alpha eta tau0 kappa : ℚ) :
    Except String StreamLDA :=
  let lam0 := DirichletWords.new K F.cap
  .ok { K := K, alpha := alpha, eta := eta, tau0 := tau0 + 1, kappa := kappa,
        D := 0, batches_to_date := 0, lam := lam0,
        Elogbeta := F.asMatrix lam0,
        expElogbeta := fun k w => F.exp (F.asMatrix lam0 k w),
        rhotStored := none }

/- ---------------------------------------------------------------------------
parse_new_docs (lines 81-135).
--------------------------------------------------------------------------- -/

/-- One step of the doc_counts dictionary update of line 127: increment the
count of id `i`, inserting ids in first-seen order. -/
def bumpCount : List (ℕ × ℕ) → ℕ → List (ℕ × ℕ)
  | [], i => [(i, 1)]
  | (j, c) :: t, i =>
      if j = i then (j, c + 1) :: t else (j, c) :: bumpCount t i

/-- One step of the token loop of lines 123-127: look the token up (assigning
a fresh id if needed) and bump its count in the doc_counts dictionary. -/
def parseTokenStep (p : DirichletWords × List (ℕ × ℕ)) (w : String) :
    DirichletWords × List (ℕ × ℕ) :=
  ((p.1.index w).2, bumpCount p.2 (p.1.index w).1)

/-- The token loop of lines 123-127: thread the store through index calls and
build the doc_counts dictionary. -/
def parseTokens (lam : DirichletWords) (ws : List String) :
    DirichletWords × List (ℕ × ℕ) :=
  ws.foldl parseTokenStep (lam, [])

/-- Accumulator for the document loop of parse_new_docs: the store being
threaded, the mutated document list (line 117-120 writes the normalized text
back into the callers list), and the wordids/wordcts lists of lists. -/
structure ParseAcc where
  lam : DirichletWords
  docsOut : List String
  wordids : List (List ℕ)
  wordcts : List (List ℕ)

/-- The body of the document loop (lines 113-133). -/
def parseDocStep (acc : ParseAcc) (doc : String) : ParseAcc :=
  let nd := normalizeDoc doc
  let r := parseTokens acc.lam (splitWords nd.toList)
  { lam := r.1,
    docsOut := acc.docsOut ++ [nd],
    wordids := acc.wordids ++ [r.2.map Prod.fst],
    wordcts := acc.wordcts ++ [r.2.map Prod.snd] }

/-- Result of parse_new_docs in the state-passing embedding: the updated model
state and the mutated caller document list, besides the returned pair of
lists of lists. -/
structure ParseResult where
  state : StreamLDA
  docsOut : List String
  wordids : List (List ℕ)
  wordcts : List (List ℕ)

/-- parse_new_docs (lines 81-135): increments D by the batch size (line 109),
then normalizes each document in place and encodes it against the store. -/
def StreamLDA.parse_new_docs (s : StreamLDA) (docs : List String) :
    ParseResult :=
  let acc := docs.foldl parseDocStep
    { lam := s.lam, docsOut := [], wordids := [], wordcts := [] }
  { state := { s with D := s.D + docs.length, lam := acc.lam },
    docsOut := acc.docsOut,
    wordids := acc.wordids,
    wordcts := acc.wordcts }

/- ---------------------------------------------------------------------------
The per-document fixed point iteration of do_e_step (lines 160-200).  In the
source this loop is dead code: every do_e_step call raises NameError at line
166 before reaching line 171 (see do_e_step below).  The loop body is
nevertheless embedded here, faithfully including its own exception channel
(the dirichlet_expectation call of line 193 raises whenever K is at least 2,
the defect settled with claim C5), so that what the loop would do in
isolation can be stated and evaluated.
--------------------------------------------------------------------------- -/

/-- The per-document iteration state: gammad, expElogthetad and phinorm
(Elogthetad is determined by gammad and recomputed on the fly). -/
structure EState where
  gammad : ℕ → ℚ
  expElogthetad : ℕ → ℚ
  phinorm : ℕ → ℚ

/-- n.mean(abs(gammad - lastgamma)) over the K components (line 197). -/
def meanAbsChange (K : ℕ) (g g2 : ℕ → ℚ) : ℚ :=
  (∑ k ∈ Finset.range K, |g2 k - g k|) / K

/-- dirichlet_expectation as called at line 193: the argument there is the
1-D row gammad.  This is exactly the vector case of the general
`dirichlet_expectation` above (theorem dirichlet_expectation_vecCall_eq
below): the branch test `len(alpha) == 1` of line 35 succeeds only when the
row has a single component; any longer row falls into the matrix branch,
where `n.sum(alpha, 1)` raises the axis error. -/
def dirichlet_expectation_vecCall (psi : ℚ → ℚ) (l : List ℚ) :
    Except String (List ℚ) :=
  if l.length = 1 then .ok (l.map (fun x => psi x - psi l.sum))
  else .error "ValueError: axis 1 is out of bounds for a 1-dimensional array"

/-- One iteration of the loop body (lines 186-195) with the Python exception
channel: the gamma update
`gammad = alpha + expElogthetad * dot(cts / phinorm, expElogbetad.T)`
of lines 191-192 is computed, then the dirichlet_expectation(gammad) call
of line 193 either returns (only possible for K = 1) or raises; on return,
expElogthetad and phinorm are recomputed.  `cts` and `beta` are the
per-document count vector and the sliced columns expElogbetad of line 179;
W is the number of distinct word ids of the document. -/
def gammaStepE (F : NumFuns) (K W : ℕ) (alpha : ℚ) (cts : ℕ → ℚ)
    (beta : ℕ → ℕ → ℚ) (s : EState) : Except String EState :=
  let g := fun k => alpha + s.expElogthetad k *
    ∑ w ∈ Finset.range W, cts w / s.phinorm w * beta k w
  match dirichlet_expectation_vecCall F.psi ((List.range K).map g) with
  | .error msg => .error msg
  | .ok El =>
      let eE := fun k => F.exp (El.getD k 0)
      .ok { gammad := g, expElogthetad := eE,
            phinorm := fun w => (∑ k ∈ Finset.range K, eE k * beta k w) + epsPhi }

/-- The convergence loop of lines 185-199 with the exception channel: up to
`fuel` refinement steps, stopping as soon as the mean absolute change of
gammad drops below meanchangethresh; an exception raised by the body
propagates out of the loop before the convergence test of lines 197-198 is
reached.  On normal completion it returns the final state and the number of
refinement steps performed. -/
def gammaIterE (F : NumFuns) (K W : ℕ) (alpha : ℚ) (cts : ℕ → ℚ)
    (beta : ℕ → ℕ → ℚ) : ℕ → EState → Except String (EState × ℕ)
  | 0, s => .ok (s, 0)
  | fuel + 1, s =>
      match gammaStepE F K W alpha cts beta s with
      | .error msg => .error msg
      | .ok s2 =>
          if meanAbsChange K s.gammad s2.gammad < meanchangethresh then
            .ok (s2, 1)
          else
            match gammaIterE F K W alpha cts beta fuel s2 with
            | .error msg => .error msg
            | .ok p => .ok (p.1, p.2 + 1)

/- ---------------------------------------------------------------------------
do_e_step (lines 137-215).
--------------------------------------------------------------------------- -/

/-- The message of the NameError raised at line 166: the source reads
`new_lambda = DirichetWords(self._K)`, a misspelling of the imported class
DirichletWords, and Python resolves names at run time. -/
def nameErrorDirichetWords : String :=
  "NameError: global name DirichetWords is not defined"

/-- Result of do_e_step in the state-passing embedding: the state and the
mutated document list record what the call changed before raising; the
outcome field is the Python exception channel, carrying the (gamma,
new_lambda) pair the method would return.  No execution produces an ok
outcome. -/
structure EStepResult where
  state : StreamLDA
  docsOut : List String
  outcome : Except String (List (ℕ → ℚ) × DirichletWords)

/-- do_e_step (lines 137-215): parse the batch (lines 155: this is where the
model state changes, D and the vocabulary of the store), then raise.  After
parse_new_docs returns, lines 160-162 initialize the gamma matrix and its
expectations (pure computation, no state is touched; the
dirichlet_expectation call of line 161 receives the 2-D gamma matrix and
does not raise), and line 166 then reads the undefined name DirichetWords,
so every call raises NameError there: the per-document loop of lines
171-200 and the statistics accumulation of lines 201-213 (settled with
claims C9 and C1) are unreachable, and no gamma row or statistics container
is ever returned. -/
def StreamLDA.do_e_step (s : StreamLDA) (_F : NumFuns) (docs : List String) :
    EStepResult :=
  let pr := s.parse_new_docs docs
  { state := pr.state, docsOut := pr.docsOut,
    outcome := .error nameErrorDirichetWords }

/- ---------------------------------------------------------------------------
approx_bound (lines 260-311).
--------------------------------------------------------------------------- -/

/-- Python max() over a list of rationals (nonempty at the use site). -/
def pymax (l : List ℚ) : ℚ := l.foldr max (l.headD 0)

/-- Modelled from the spec: Term C of the bound, the correction for the global
topic-word parameters against the prior eta, computed once over the entire
non-rescaled store.  Lines 306-309 compute these sums treating the lambda
store object as a dense numeric array; the store internals being out of
scope, the sums are taken over the per-(word id, topic) counts of the store
model. -/
def boundTermC (F : NumFuns) (s : StreamLDA) : ℚ :=
  let Wsz := s.lam.words.length
  (∑ k ∈ Finset.range s.K, ∑ w ∈ Finset.range Wsz,
      ((s.eta - s.lam.counts w k) * s.Elogbeta k w
        + F.gammaln (s.lam.counts w k) - F.gammaln s.eta))
  + ∑ k ∈ Finset.range s.K,
      (F.gammaln (s.eta * Wsz)
        - F.gammaln (∑ w ∈ Finset.range Wsz, s.lam.counts w k))

/-- Result of approx_bound in the state-passing embedding. -/
structure BoundResult where
  state : StreamLDA
  docsOut : List String
  score : ℚ

/-- approx_bound (lines 260-311): parse the batch again (incrementing D again
and normalizing the document list again), compute the expected
log-likelihood of the words by the log-sum-exp of lines 291-294, add the
theta-prior correction terms of lines 298-300, rescale by D over the batch
size (line 303, with the already incremented D), and add Term C. -/
def StreamLDA.approx_bound (s : StreamLDA) (F : NumFuns) (docs : List String)
    (gamma : List (ℕ → ℚ)) : BoundResult :=
  let pr := s.parse_new_docs docs
  let batchD := docs.length
  let gammaRow := fun d => gamma.getD d (fun _ => 0)
  let Elogtheta := fun d k =>
    F.psi (gammaRow d k) - F.psi (∑ j ∈ Finset.range s.K, gammaRow d j)
  let scoreA := ∑ d ∈ Finset.range batchD,
      ∑ i ∈ Finset.range (pr.wordids.getD d []).length,
        (((pr.wordcts.getD d []).getD i 0 : ℕ) : ℚ) *
          (let temp := fun k =>
            Elogtheta d k + s.Elogbeta k ((pr.wordids.getD d []).getD i 0)
           let tmax := pymax ((List.range s.K).map temp)
           F.log (∑ k ∈ Finset.range s.K, F.exp (temp k - tmax)) + tmax)
  let scoreB1 := ∑ d ∈ Finset.range batchD, ∑ k ∈ Finset.range s.K,
      (s.alpha - gammaRow d k) * Elogtheta d k
  let scoreB2 := ∑ d ∈ Finset.range batchD, ∑ k ∈ Finset.range s.K,
      (F.gammaln (gammaRow d k) - F.gammaln s.alpha)
  let scoreB3 := ∑ d ∈ Finset.range batchD,
      (F.gammaln (s.alpha * s.K)
        - F.gammaln (∑ k ∈ Finset.range s.K, gammaRow d k))
  let scaled := (scoreA + scoreB1 + scoreB2 + scoreB3) * pr.state.D / batchD
  { state := pr.state, docsOut := pr.docsOut,
    score := scaled + boundTermC F pr.state }

/- ---------------------------------------------------------------------------
update_lambda (lines 217-258).
--------------------------------------------------------------------------- -/

/-- oversize_by (line 248): the signed excess of the vocabulary size over the
capacity bound of the store. -/
def oversizeBy (st : DirichletWords) : ℤ :=
  (st.words.length : ℤ) - (st.max_tables : ℤ)

/-- percent_to_forget (line 250): `oversize_by / len(self._lambda._words)`.
Both operands are Python 2 ints, so the division is integer floor division;
at the use site both operands are positive, where Lean Int division agrees
with Python floor division. -/
def percentToForget (st : DirichletWords) : ℤ :=
  oversizeBy st / (st.words.length : ℤ)

/-- The housekeeping block of lines 247-251: when the store has outgrown its
capacity, ask it to forget percent_to_forget of its entries. -/
def housekeep (st : DirichletWords) : DirichletWords :=
  if 0 < oversizeBy st then st.forget ((percentToForget st : ℚ)) else st

/-- Result of update_lambda in the state-passing embedding: the state and
the document list record the effects before the raise; the outcome field is
the exception channel, carrying the (gamma, bound) pair the method would
return.  No execution produces an ok outcome. -/
structure UpdateResult where
  state : StreamLDA
  docsOut : List String
  outcome : Except String (List (ℕ → ℚ) × ℚ)

/-- update_lambda (lines 217-258): compute the learning-rate weight rhot and
store it on self (lines 236-237, which do execute), then call do_e_step
(line 241), which always raises at its line 166, so the NameError
propagates out of update_lambda: the bound estimation, the merge, the
capacity housekeeping, the refresh of the cached matrices and the
batches_to_date increment (lines 243-256) are present in the source but
unreachable; they are embedded below only behind the ok branch of the
E-step outcome, which no execution takes. -/
def StreamLDA.update_lambda (s : StreamLDA) (F : NumFuns)
    (docs : List String) : UpdateResult :=
  let rhot := F.pow (s.tau0 + (s.batches_to_date : ℚ)) (-s.kappa)
  let s1 := { s with rhotStored := some rhot }
  let e := s1.do_e_step F docs
  match e.outcome with
  | .error msg =>
      { state := e.state, docsOut := e.docsOut, outcome := .error msg }
  | .ok p =>
      let b := e.state.approx_bound F e.docsOut p.1
      let merged := b.state.lam.merge p.2 rhot
      let lam2 := housekeep merged
      let s3 := { b.state with
        lam := lam2
        Elogbeta := F.asMatrix lam2
        expElogbeta := fun k w => F.exp (F.asMatrix lam2 k w)
        batches_to_date := b.state.batches_to_date + 1 }
      { state := s3, docsOut := b.docsOut, outcome := .ok (p.1, b.score) }

/-- The learning-rate weight formula of line 236 as a real number:
`pow(self._tau0 + self._batches_to_date, -self._kappa)`, where the stored
tau0 is the constructor argument plus one (line 62) and b stands for the
value of batches_to_date at the call.  (In every execution b stays 0: the
increment at line 256 sits behind the line-241 raise.)  `tau0` below is
the constructor argument. -/
noncomputable def rhot (tau0 kappa : ℝ) (b : ℕ) : ℝ :=
  (tau0 + 1 + (b : ℝ)) ^ (-kappa)

/- ---------------------------------------------------------------------------
Concrete instances shared by the concrete-input theorems below.
--------------------------------------------------------------------------- -/

/-- A concrete instantiation of the numeric and collaborator primitives. -/
def numFuns0 : NumFuns :=
  { exp := fun _ => 1, psi := fun _ => 0, log := fun _ => 0,
    gammaln := fun _ => 0, pow := fun _ _ => 1, grand := fun _ _ => 1,
    asMatrix := fun _ _ _ => 0, cap := 10 }

/-- A concrete freshly initialized model state: one topic, alpha = eta = 1,
constructor tau0 = 1 (stored as 2), kappa = 1/2, empty store of capacity
10, cached matrices all zero. -/
def model0 : StreamLDA :=
  { K := 1, alpha := 1, eta := 1, tau0 := 2, kappa := 1 / 2,
    D := 0, batches_to_date := 0,
    lam := { numTopics := 1, words := [], counts := fun _ _ => 0,
             max_tables := 10 },
    Elogbeta := fun _ _ => 0, expElogbeta := fun _ _ => 0,
    rhotStored := none }

/-- A second concrete instantiation of the primitives whose pow returns its
base, so that the weight a call stores in the _rhot attribute reveals the
base that call used. -/
def numFuns1 : NumFuns :=
  { exp := fun _ => 1, psi := fun _ => 0, log := fun _ => 0,
    gammaln := fun _ => 0, pow := fun x _ => x, grand := fun _ _ => 1,
    asMatrix := fun _ _ _ => 0, cap := 10 }

/-- A concrete store whose vocabulary (3 entries) exceeds its capacity
bound (2). -/
def storeOversize : DirichletWords :=
  { numTopics := 2, words := ["a", "b", "c"], counts := fun _ _ => 0,
    max_tables := 2 }

/- ---------------------------------------------------------------------------
Claim C1.
--------------------------------------------------------------------------- -/

/-- Claim C1 (code_bug evidence): the statistics loop of do_e_step cannot
apply the per-(word, topic) update to the topics 0..K-1, because its header
(line 210) is `for topic in self._K` with `self._K` the int K, and iterating
an int raises TypeError.  Evaluated here at K = 2, the smallest
configuration of the spec scenarios. -/
theorem claim_C1_stats_loop_type_error :
    statsLoopTopics 2 = .error "TypeError: int object is not iterable" := rfl

/- ---------------------------------------------------------------------------
Claim C5.
--------------------------------------------------------------------------- -/

/-- Claim C5 (code_bug evidence): dirichlet_expectation on the positive 1-D
vector (1, 2) raises instead of returning
digamma(alpha_k) - digamma(sum of all components): the branch test of
line 35 compares len(alpha) with 1, so a vector of length 2 falls into
the matrix branch, where n.sum(alpha, 1) addresses a second axis that a
1-D array does not have.  The multi-row part of the claim does hold: on a
2 x 2 matrix the normalization is per row (evaluated with the identity in
place of digamma). -/
theorem claim_C5_vector_input_raises :
    dirichlet_expectation (fun x => x) (.vec [1, 2]) =
      .error "ValueError: axis 1 is out of bounds for a 1-dimensional array"
    ∧ dirichlet_expectation (fun x => x) (.mat [[1, 3], [2, 2]]) =
      .ok (.mat [[-3, -1], [-2, -2]]) := by
  constructor
  · rfl
  · show Except.ok _ = _
    norm_num [dirichlet_expectation, NpArr.len]

/- ---------------------------------------------------------------------------
Claim C6.
--------------------------------------------------------------------------- -/

/-- The computable Rat.floor used in the store model agrees with the
mathematical floor. -/
theorem ratFloor_eq_intFloor (q : ℚ) : Rat.floor q = ⌊q⌋ := rfl

/-- Claim C6 (code_bug evidence): with vocabulary size 3 and capacity 2 the
housekeeping block of update_lambda requests eviction of the fraction 0,
not (size - capacity) / size = 1/3, because line 250 divides the two
Python 2 ints with floor division; the store therefore evicts nothing and
the post-eviction vocabulary size 3 still exceeds the capacity 2. -/
theorem claim_C6_eviction_fraction_truncates :
    percentToForget storeOversize = 0
    ∧ ((3 : ℚ) - 2) / 3 ≠ 0
    ∧ (housekeep storeOversize).words.length = 3
    ∧ storeOversize.max_tables < (housekeep storeOversize).words.length := by
  refine ⟨?_, by norm_num, ?_, ?_⟩ <;>
    norm_num [housekeep, oversizeBy, percentToForget, storeOversize,
      DirichletWords.forget, ratFloor_eq_intFloor]

/- ---------------------------------------------------------------------------
Claim C7.
--------------------------------------------------------------------------- -/

/-- Claim C7 (counterexample): construction does not reject invalid
configurations.  With K = 0, alpha = -1, eta = -1, tau0 = -2 (all four
rejection conditions of the claim violated at once) __init__ still
succeeds. -/
theorem claim_C7_counterexample_init_accepts_invalid :
    (StreamLDA.init numFuns0 0 (-1) (-1) (-2) (1 / 2)).isOk = true := rfl

/-- Claim C7 (amended): construction performs no validation at all: __init__
(lines 44-78) is a sequence of assignments with no raise statement, so it
succeeds for every configuration, valid or not. -/
theorem claim_C7_init_never_rejects (F : NumFuns) (K : ℕ)
    (alpha eta tau0 kappa : ℚ) :
    (StreamLDA.init F K alpha eta tau0 kappa).isOk = true := rfl

/- ---------------------------------------------------------------------------
Properties of the document normalization.
--------------------------------------------------------------------------- -/

/-- No two consecutive spaces occur in the list. -/
def noSpaceRun : List Char → Prop
  | c1 :: c2 :: rest => ¬(c1 = ' ' ∧ c2 = ' ') ∧ noSpaceRun (c2 :: rest)
  | _ => True

/-- Collapsing a list headed by c yields a list headed by c. -/
theorem collapseSpaces_head :
    ∀ (l : List Char) (c : Char), ∃ t, collapseSpaces (c :: l) = c :: t := by
  intro l
  induction l with
  | nil => intro c; exact ⟨[], rfl⟩
  | cons c2 r ih =>
      intro c
      by_cases h : c = ' ' ∧ c2 = ' '
      · obtain ⟨t, ht⟩ := ih c2
        refine ⟨t, ?_⟩
        rw [collapseSpaces, if_pos h, ht, h.1, h.2]
      · exact ⟨collapseSpaces (c2 :: r), by rw [collapseSpaces, if_neg h]⟩

/-- The output of collapseSpaces has no space runs. -/
theorem noSpaceRun_collapseSpaces (l : List Char) :
    noSpaceRun (collapseSpaces l) := by
  induction l with
  | nil => trivial
  | cons c1 t ih =>
      cases t with
      | nil => trivial
      | cons c2 r =>
          by_cases h : c1 = ' ' ∧ c2 = ' '
          · rw [collapseSpaces, if_pos h]
            exact ih
          · rw [collapseSpaces, if_neg h]
            obtain ⟨t2, ht2⟩ := collapseSpaces_head r c2
            rw [ht2]
            rw [ht2] at ih
            exact ⟨h, ih⟩

/-- collapseSpaces is the identity on lists without space runs. -/
theorem collapseSpaces_of_noSpaceRun :
    ∀ l : List Char, noSpaceRun l → collapseSpaces l = l := by
  intro l
  induction l with
  | nil => intro _; rfl
  | cons c1 t ih =>
      cases t with
      | nil => intro _; rfl
      | cons c2 r =>
          intro h
          rw [collapseSpaces, if_neg h.1, ih h.2]

/-- Collapsing only removes characters. -/
theorem mem_collapseSpaces :
    ∀ (l : List Char) (a : Char), a ∈ collapseSpaces l → a ∈ l := by
  intro l
  induction l with
  | nil => intro a h; exact h
  | cons c1 t ih =>
      cases t with
      | nil => intro a h; exact h
      | cons c2 r =>
          intro a h
          by_cases hc : c1 = ' ' ∧ c2 = ' '
          · rw [collapseSpaces, if_pos hc] at h
            exact List.mem_cons_of_mem c1 (ih a h)
          · rw [collapseSpaces, if_neg hc] at h
            rcases List.mem_cons.mp h with h1 | h2
            · exact List.mem_cons.mpr (Or.inl h1)
            · exact List.mem_cons_of_mem c1 (ih a h2)

/-- Kept characters are fixed by the lowercase map. -/
theorem pyLowerChar_of_keep (c : Char) (h : keepChar c = true) :
    pyLowerChar c = c := by
  have hn : ¬(65 ≤ c.toNat ∧ c.toNat ≤ 90) := by
    simp only [keepChar, Bool.or_eq_true, Bool.and_eq_true, decide_eq_true_eq,
      beq_iff_eq] at h
    omega
  rw [pyLowerChar, if_neg hn]

/-- Kept characters are fixed by the hyphen substitution. -/
theorem subHyphenChar_of_keep (c : Char) (h : keepChar c = true) :
    subHyphenChar c = c := by
  have hn : c ≠ '-' := by
    intro he
    rw [he] at h
    simp only [keepChar] at h
    exact absurd h (by decide)
  rw [subHyphenChar, if_neg hn]

/-- A map that fixes every element of a list is the identity on it. -/
theorem map_id_of_mem {f : Char → Char} :
    ∀ l : List Char, (∀ c ∈ l, f c = c) → l.map f = l := by
  intro l
  induction l with
  | nil => intro _; rfl
  | cons c t ih =>
      intro h
      rw [List.map_cons, h c (List.mem_cons_self c t),
        ih fun c2 hc2 => h c2 (List.mem_cons_of_mem c hc2)]

/-- A filter whose test holds on every element of a list keeps the list. -/
theorem filter_id_of_mem {p : Char → Bool} :
    ∀ l : List Char, (∀ c ∈ l, p c = true) → l.filter p = l := by
  intro l
  induction l with
  | nil => intro _; rfl
  | cons c t ih =>
      intro h
      rw [List.filter_cons_of_pos (h c (List.mem_cons_self c t)),
        ih fun c2 hc2 => h c2 (List.mem_cons_of_mem c hc2)]

/-- Every character the normalization outputs is in the kept class. -/
theorem keep_of_mem_normalizeChars (l : List Char) (c : Char)
    (h : c ∈ normalizeChars l) : keepChar c = true := by
  have h2 := mem_collapseSpaces _ c h
  exact (List.mem_filter.mp h2).2

/-- The per-document normalization is idempotent: on an already normalized
string, each of the four substitution stages is the identity. -/
theorem normalizeChars_idem (l : List Char) :
    normalizeChars (normalizeChars l) = normalizeChars l := by
  have hkeep := keep_of_mem_normalizeChars l
  have h1 : (normalizeChars l).map pyLowerChar = normalizeChars l :=
    map_id_of_mem _ fun c hc => pyLowerChar_of_keep c (hkeep c hc)
  have h2 : (normalizeChars l).map subHyphenChar = normalizeChars l :=
    map_id_of_mem _ fun c hc => subHyphenChar_of_keep c (hkeep c hc)
  have h3 : (normalizeChars l).filter keepChar = normalizeChars l :=
    filter_id_of_mem _ fun c hc => hkeep c hc
  show collapseSpaces ((((normalizeChars l).map pyLowerChar).map
    subHyphenChar).filter keepChar) = normalizeChars l
  rw [h1, h2, h3]
  exact collapseSpaces_of_noSpaceRun _ (noSpaceRun_collapseSpaces _)

/-- normalizeDoc is idempotent. -/
theorem normalizeDoc_idem (x : String) :
    normalizeDoc (normalizeDoc x) = normalizeDoc x := by
  show String.mk (normalizeChars (String.mk (normalizeChars x.toList)).toList)
      = String.mk (normalizeChars x.toList)
  rw [show (String.mk (normalizeChars x.toList)).toList
      = normalizeChars x.toList from rfl, normalizeChars_idem]

/- ---------------------------------------------------------------------------
Effects of parsing on the model state.
--------------------------------------------------------------------------- -/

/-- What encoding may do to the store: it can only append new tokens to the
word list; topic count, counts and capacity are untouched. -/
def StoreExtends (a b : DirichletWords) : Prop :=
  b.numTopics = a.numTopics ∧ b.counts = a.counts
  ∧ b.max_tables = a.max_tables ∧ ∃ ext, b.words = a.words ++ ext

theorem StoreExtends.refl (a : DirichletWords) : StoreExtends a a :=
  ⟨rfl, rfl, rfl, [], (List.append_nil _).symm⟩

theorem StoreExtends.trans {a b c : DirichletWords}
    (h1 : StoreExtends a b) (h2 : StoreExtends b c) : StoreExtends a c := by
  obtain ⟨e1, he1⟩ := h1.2.2.2
  obtain ⟨e2, he2⟩ := h2.2.2.2
  exact ⟨h2.1.trans h1.1, h2.2.1.trans h1.2.1, h2.2.2.1.trans h1.2.2.1,
    e1 ++ e2, by rw [he2, he1, List.append_assoc]⟩

/-- index only ever appends to the word list. -/
theorem index_storeExtends (st : DirichletWords) (w : String) :
    StoreExtends st (st.index w).2 := by
  rw [DirichletWords.index]
  cases h : st.words.findIdx? (· == w) with
  | some i => exact StoreExtends.refl st
  | none => exact ⟨rfl, rfl, rfl, [w], rfl⟩

/-- The token loop only ever appends to the word list. -/
theorem foldl_parseTokenStep_storeExtends :
    ∀ (ws : List String) (p : DirichletWords × List (ℕ × ℕ)),
      StoreExtends p.1 (ws.foldl parseTokenStep p).1 := by
  intro ws
  induction ws with
  | nil => intro p; exact StoreExtends.refl _
  | cons w t ih =>
      intro p
      rw [List.foldl_cons]
      exact (index_storeExtends p.1 w).trans (ih (parseTokenStep p w))

/-- Parsing a batch only ever appends to the word list of the store. -/
theorem foldl_parseDocStep_storeExtends :
    ∀ (docs : List String) (acc : ParseAcc),
      StoreExtends acc.lam (docs.foldl parseDocStep acc).lam := by
  intro docs
  induction docs with
  | nil => intro acc; exact StoreExtends.refl _
  | cons doc t ih =>
      intro acc
      rw [List.foldl_cons]
      exact (foldl_parseTokenStep_storeExtends _ _).trans (ih (parseDocStep acc doc))

/-- The document loop writes exactly the normalized documents, in order, into
the caller document list. -/
theorem foldl_parseDocStep_docsOut :
    ∀ (docs : List String) (acc : ParseAcc),
      (docs.foldl parseDocStep acc).docsOut =
        acc.docsOut ++ docs.map normalizeDoc := by
  intro docs
  induction docs with
  | nil => intro acc; exact (List.append_nil _).symm
  | cons doc t ih =>
      intro acc
      rw [List.foldl_cons, ih (parseDocStep acc doc)]
      show (acc.docsOut ++ [normalizeDoc doc]) ++ t.map normalizeDoc = _
      rw [List.append_assoc]
      rfl

/-- The full effect of parse_new_docs on the model state: D grows by the
batch size, the store is only extended with new tokens, and every other
field (including the cached matrices and the batch counter) is unchanged;
the caller document list is overwritten with the normalized documents. -/
theorem parse_new_docs_effect (s : StreamLDA) (docs : List String) :
    (s.parse_new_docs docs).state.D = s.D + docs.length
    ∧ (s.parse_new_docs docs).state.batches_to_date = s.batches_to_date
    ∧ (s.parse_new_docs docs).state.K = s.K
    ∧ (s.parse_new_docs docs).state.alpha = s.alpha
    ∧ (s.parse_new_docs docs).state.Elogbeta = s.Elogbeta
    ∧ (s.parse_new_docs docs).state.expElogbeta = s.expElogbeta
    ∧ StoreExtends s.lam (s.parse_new_docs docs).state.lam
    ∧ (s.parse_new_docs docs).docsOut = docs.map normalizeDoc := by
  refine ⟨rfl, rfl, rfl, rfl, rfl, rfl, ?_, ?_⟩
  · exact foldl_parseDocStep_storeExtends docs
      { lam := s.lam, docsOut := [], wordids := [], wordcts := [] }
  · have := foldl_parseDocStep_docsOut docs
      { lam := s.lam, docsOut := [], wordids := [], wordcts := [] }
    simpa using this

/- ---------------------------------------------------------------------------
Claim C10.
--------------------------------------------------------------------------- -/

/-- Claim C10: parsing overwrites the caller document list with the
normalized (lowercased, hyphens to spaces, non-alphabetic characters
removed, space runs collapsed) documents, through every entry point:
parse_new_docs itself, do_e_step, approx_bound and update_lambda.  The
overwriting completes before any raise: parse_new_docs finishes the whole
batch before do_e_step reaches line 166, and the bound estimator parses at
line 278 before anything else (update_lambda mutates the list once, through
its E-step; its second parse at line 278 sits behind the line-241 raise). -/
theorem claim_C10_docs_mutated_in_place (F : NumFuns) (s : StreamLDA)
    (docs : List String) (gamma : List (ℕ → ℚ)) :
    (s.parse_new_docs docs).docsOut = docs.map normalizeDoc
    ∧ (s.do_e_step F docs).docsOut = docs.map normalizeDoc
    ∧ (s.approx_bound F docs gamma).docsOut = docs.map normalizeDoc
    ∧ (s.update_lambda F docs).docsOut = docs.map normalizeDoc := by
  have hparse : ∀ (s2 : StreamLDA) (ds : List String),
      (s2.parse_new_docs ds).docsOut = ds.map normalizeDoc :=
    fun s2 ds => (parse_new_docs_effect s2 ds).2.2.2.2.2.2.2
  refine ⟨hparse s docs, hparse s docs, hparse s docs, ?_⟩
  show (({ s with rhotStored := some (F.pow (s.tau0 + (s.batches_to_date : ℚ))
      (-s.kappa)) } : StreamLDA).parse_new_docs docs).docsOut
    = docs.map normalizeDoc
  exact hparse _ docs

/- ---------------------------------------------------------------------------
Claim C8.
--------------------------------------------------------------------------- -/

/-- Claim C8 (counterexample): the E-step entry point is not read-only with
respect to the model: running do_e_step on a fresh model with the single
document "a" changes the cumulative document count D from 0 to 1. -/
theorem claim_C8_counterexample_e_step_mutates :
    (model0.do_e_step numFuns0 ["a"]).state.D = 1 ∧ model0.D = 0 :=
  ⟨rfl, rfl⟩

/-- Claim C8 (amended): the exposed E-step-without-global-update operation is
do_e_step; it leaves the batch counter, both cached expectation matrices,
the topic-word counts of the store and the store capacity unchanged, but it
is not read-only: it increments D by the batch size and it registers
previously unseen tokens in the vocabulary of the store. -/
theorem claim_C8_e_step_frame (F : NumFuns) (s : StreamLDA)
    (docs : List String) :
    (s.do_e_step F docs).state.batches_to_date = s.batches_to_date
    ∧ (s.do_e_step F docs).state.Elogbeta = s.Elogbeta
    ∧ (s.do_e_step F docs).state.expElogbeta = s.expElogbeta
    ∧ (s.do_e_step F docs).state.lam.counts = s.lam.counts
    ∧ (s.do_e_step F docs).state.lam.max_tables = s.lam.max_tables
    ∧ (s.do_e_step F docs).state.D = s.D + docs.length
    ∧ ∃ ext, (s.do_e_step F docs).state.lam.words = s.lam.words ++ ext := by
  have heq : (s.do_e_step F docs).state = (s.parse_new_docs docs).state := rfl
  have hp := parse_new_docs_effect s docs
  rw [heq]
  exact ⟨hp.2.1, hp.2.2.2.2.1, hp.2.2.2.2.2.1, hp.2.2.2.2.2.2.1.2.1,
    hp.2.2.2.2.2.2.1.2.2.1, hp.1, hp.2.2.2.2.2.2.1.2.2.2⟩

/- ---------------------------------------------------------------------------
Claim C4.
--------------------------------------------------------------------------- -/

/-- Claim C4 (code_bug evidence): one update_lambda call on a fresh model
with the one-document batch "cat" raises (the NameError of line 166,
propagated from do_e_step) after a single parse: D has been incremented by
exactly the batch size, 0 to 1, but batches_to_date is never incremented,
staying 0 instead of becoming 1 (the increment at line 256 is
unreachable), and the call returns nothing. -/
theorem claim_C4_update_raises_before_increment :
    (model0.update_lambda numFuns0 ["cat"]).state.D = 1
    ∧ (model0.update_lambda numFuns0 ["cat"]).state.batches_to_date = 0
    ∧ model0.batches_to_date = 0
    ∧ (model0.update_lambda numFuns0 ["cat"]).outcome.isOk = false :=
  ⟨rfl, rfl, rfl, rfl⟩

/- ---------------------------------------------------------------------------
Claim C3.
--------------------------------------------------------------------------- -/

/-- Claim C3 (counterexample): the b-th update call does not use the weight
(internal tau0 + b) to the power minus kappa, because batches_to_date never
advances: every call raises at line 166 before the increment at line 256.
The pow primitive of numFuns1 returns its base, so the _rhot attribute that
line 237 stores exposes the base a call used: the second call (b = 1) on a
fresh model stores internal tau0 + 0, where the claim requires internal
tau0 + 1, and the two differ. -/
theorem claim_C3_counterexample_frozen_weight :
    ((model0.update_lambda numFuns1 ["cat"]).state.update_lambda numFuns1
        ["dog"]).state.rhotStored = some (model0.tau0 + ((0 : ℕ) : ℚ))
    ∧ model0.tau0 + ((0 : ℕ) : ℚ) ≠ model0.tau0 + 1 := by
  refine ⟨rfl, ?_⟩
  norm_num

/-- Claim C3 (amended): every update call computes and stores (lines
236-237, which execute before the raise) the weight
pow(internal tau0 + batches_to_date, -kappa), and leaves batches_to_date
unchanged, so starting from a fresh model every call uses the first-batch
weight; as a real number that weight, rhot tau0 kappa 0 =
((constructor tau0) + 1) ^ (-kappa), lies in (0, 1] for constructor
tau0 at least 0 and kappa greater than 0; and the schedule
b to rhot tau0 kappa b that line 236 implements is strictly decreasing in
b, though the program never advances b. -/
theorem claim_C3_frozen_schedule (F : NumFuns) (s : StreamLDA)
    (docs : List String) (tau0 kappa : ℝ) (htau : 0 ≤ tau0) (hk : 0 < kappa) :
    (s.update_lambda F docs).state.rhotStored
      = some (F.pow (s.tau0 + (s.batches_to_date : ℚ)) (-s.kappa))
    ∧ (s.update_lambda F docs).state.batches_to_date = s.batches_to_date
    ∧ rhot tau0 kappa 0 = (tau0 + 1) ^ (-kappa)
    ∧ rhot tau0 kappa 0 ∈ Set.Ioc (0 : ℝ) 1
    ∧ (∀ b1 b2 : ℕ, b1 < b2 → rhot tau0 kappa b2 < rhot tau0 kappa b1) := by
  have hbase : ∀ b : ℕ, (1 : ℝ) ≤ tau0 + 1 + b := by
    intro b
    have hb : (0 : ℝ) ≤ (b : ℝ) := Nat.cast_nonneg b
    linarith
  have hpos : ∀ b : ℕ, (0 : ℝ) < tau0 + 1 + b := fun b => by
    have := hbase b; linarith
  refine ⟨rfl, rfl, by simp [rhot], ⟨?_, ?_⟩, ?_⟩
  · exact Real.rpow_pos_of_pos (hpos 0) (-kappa)
  · exact Real.rpow_le_one_of_one_le_of_nonpos (hbase 0) (neg_nonpos.mpr hk.le)
  · intro b1 b2 hb
    have hxy : tau0 + 1 + (b1 : ℝ) < tau0 + 1 + (b2 : ℝ) := by
      have : (b1 : ℝ) < (b2 : ℝ) := Nat.cast_lt.mpr hb
      linarith
    have hr : (tau0 + 1 + (b1 : ℝ)) ^ kappa < (tau0 + 1 + (b2 : ℝ)) ^ kappa :=
      Real.rpow_lt_rpow (hpos b1).le hxy hk
    rw [rhot, rhot, Real.rpow_neg (hpos b2).le, Real.rpow_neg (hpos b1).le]
    exact inv_strictAnti₀ (Real.rpow_pos_of_pos (hpos b1) kappa) hr

/-- Claim C3, witnessed at the concrete primitives, fresh model, batch
["cat"], and the real schedule tau0 = 1, kappa = 1. -/
theorem claim_C3_frozen_witness :
    (0 : ℝ) ≤ 1 ∧ (0 : ℝ) < 1
    ∧ ((model0.update_lambda numFuns0 ["cat"]).state.rhotStored
        = some (numFuns0.pow (model0.tau0 + (model0.batches_to_date : ℚ))
            (-model0.kappa))
      ∧ (model0.update_lambda numFuns0 ["cat"]).state.batches_to_date
          = model0.batches_to_date
      ∧ rhot 1 1 0 = ((1 : ℝ) + 1) ^ (-(1 : ℝ))
      ∧ rhot 1 1 0 ∈ Set.Ioc (0 : ℝ) 1
      ∧ (∀ b1 b2 : ℕ, b1 < b2 → rhot 1 1 b2 < rhot 1 1 b1)) :=
  ⟨by norm_num, by norm_num,
    claim_C3_frozen_schedule numFuns0 model0 ["cat"] 1 1
      (by norm_num) (by norm_num)⟩

/- ---------------------------------------------------------------------------
Claim C2.
--------------------------------------------------------------------------- -/

/-- Claim C2 (code_bug evidence): update_lambda never returns gamma rows at
all, so there are no returned rows whose components could be compared with
alpha: on a fresh model with the batch ["cat"] the call raises the
NameError of line 166, propagated from do_e_step before any per-document
iteration runs. -/
theorem claim_C2_update_returns_no_gamma :
    (model0.update_lambda numFuns0 ["cat"]).outcome
      = .error nameErrorDirichetWords := rfl

/- ---------------------------------------------------------------------------
Claim C9.
--------------------------------------------------------------------------- -/

/-- The line-193 call site agrees with the general embedding of
dirichlet_expectation on vector arguments. -/
theorem dirichlet_expectation_vecCall_eq (psi : ℚ → ℚ) (l : List ℚ) :
    dirichlet_expectation psi (.vec l) =
      (dirichlet_expectation_vecCall psi l).map NpArr.vec := by
  rw [dirichlet_expectation, dirichlet_expectation_vecCall]
  simp only [NpArr.len, NpArr.total]
  split
  · rfl
  · rfl

/-- Claim C9 (code_bug evidence): no execution performs the capped
early-exit iteration the claim describes.  The loop is unreachable (every
do_e_step call raises at line 166 first, second conjunct); and taken in
isolation with K = 2 topics, its very first iteration raises at line 193
(dirichlet_expectation applied to the 1-D length-2 row gammad), before the
convergence test of lines 197-198 is reached (first conjunct, evaluated at
a concrete one-word document state). -/
theorem claim_C9_loop_raises_first_iteration :
    gammaIterE numFuns0 2 1 1 (fun _ => 1) (fun _ _ => 1) 100
      { gammad := fun _ => 1, expElogthetad := fun _ => 1,
        phinorm := fun _ => 1 }
      = .error "ValueError: axis 1 is out of bounds for a 1-dimensional array"
    ∧ (model0.do_e_step numFuns0 ["cat"]).outcome.isOk = false :=
  ⟨rfl, rfl⟩
